import Mathlib

/-!
Verification of the YouTube transcript service in `src/api/main.py`.

The file shallowly embeds the two components of the service:

* `extract_video_id` — the identifier extractor (four regular-expression
  patterns tried in order, `re.search` semantics);
* `get_youtube_transcript` and the two HTTP endpoints `transcript_endpoint`
  (`GET /transcript`) and `gpt_transcript_endpoint`
  (`GET /api/v1/youtube/transcript`) — the transcript retriever with its
  five-step fallback chain and the error classification of the request layer.

The external caption provider (`youtube_transcript_api`) is opaque to the
service; it is modelled by a `Provider` structure recording the outcome of
every call the service can make. Caption timestamps are Python floats on
which the service performs no arithmetic; they are carried as `Float`.
-/

/-- Character class `[a-zA-Z0-9_-]` of the patterns in `extract_video_id`. -/
def idChar (c : Char) : Bool :=
  (('a' ≤ c && c ≤ 'z') || ('A' ≤ c && c ≤ 'Z') || ('0' ≤ c && c ≤ '9')
    || c == '_' || c == '-')

/-- Attempt to match `pre ++ [a-zA-Z0-9_-]{11}` at the head of `s`,
returning the 11-character captured group. -/
def matchAt (pre s : List Char) : Option (List Char) :=
  if pre.isPrefixOf s && ((s.drop pre.length).take 11).length == 11
      && ((s.drop pre.length).take 11).all idChar then
    some ((s.drop pre.length).take 11)
  else none

/-- `re.search` of the unanchored pattern `pre ++ ([a-zA-Z0-9_-]{11})`:
try every start position from the left, return the first captured group. -/
def searchPat (pre : List Char) : List Char → Option (List Char)
  | [] => matchAt pre []
  | c :: cs =>
    match matchAt pre (c :: cs) with
    | some t => some t
    | none => searchPat pre cs

/-- `re.search` of the anchored pattern `^([a-zA-Z0-9_-]{11})$`.  In Python,
without `re.MULTILINE`, `$` matches at the end of the string and also just
before a newline that ends the string, so the pattern accepts an
11-character token optionally followed by one final newline. -/
def matchBareId (s : List Char) : Option (List Char) :=
  if (s.take 11).length == 11 && (s.take 11).all idChar
      && (s.drop 11 == [] || s.drop 11 == ['\n']) then some (s.take 11)
  else none

/-- `extract_video_id` from `src/api/main.py`: the four patterns
`v=([a-zA-Z0-9_-]{11})`, `youtu\.be/([a-zA-Z0-9_-]{11})`,
`embed/([a-zA-Z0-9_-]{11})`, `^([a-zA-Z0-9_-]{11})$` are tried in order with
`re.search`; the first match wins and its captured group is returned;
`none` models Python's `None`. -/
def extract_video_id (url : String) : Option String :=
  let s := url.toList
  match searchPat ['v', '='] s with
  | some t => some (String.mk t)
  | none =>
    match searchPat ['y', 'o', 'u', 't', 'u', '.', 'b', 'e', '/'] s with
    | some t => some (String.mk t)
    | none =>
      match searchPat ['e', 'm', 'b', 'e', 'd', '/'] s with
      | some t => some (String.mk t)
      | none => (matchBareId s).map String.mk

/-- One timed caption line as returned by the provider (a dict with keys
`text`, `start`, `duration` in the Python source). -/
structure CaptionEntry where
  text : String
  start : Float
  duration : Float

/-- The pydantic response model `TranscriptItem` of `src/api/main.py`. -/
structure TranscriptItem where
  text : String
  start : Float
  duration : Float

/-- The list comprehension of the endpoints: build a `TranscriptItem` from
each provider entry, copying `text`, `start` and `duration`. -/
def itemOfEntry (e : CaptionEntry) : TranscriptItem :=
  { text := e.text, start := e.start, duration := e.duration }

/-- The five numbered fallback attempts of `get_youtube_transcript`. -/
inductive Step where
  | koManual
  | koAuto
  | enManual
  | enAuto
  | firstAvail
deriving DecidableEq

/-- Opaque model of the external caption provider for the requested video:
the outcome of every call the service can make.

* `listResult` — whether `YouTubeTranscriptApi.list_transcripts` succeeds
  or raises (with the raised error's message);
* `manual` / `generated` — the `_manually_created_transcripts` /
  `_generated_transcripts` dicts of the returned list, in insertion order;
  each value is the outcome of calling `.fetch()` on that track
  (`none` models `fetch` raising);
* `get` — the outcome of `YouTubeTranscriptApi.get_transcript(video_id,
  languages=[lang])` for each language `lang` (the error case carries the
  raised message). -/
structure Provider where
  listResult : Except String Unit
  manual : List (String × Option (List CaptionEntry))
  generated : List (String × Option (List CaptionEntry))
  get : String → Except String (List CaptionEntry)

/-- `transcript_list._generated_transcripts[lang].fetch()` guarded by
`lang in transcript_list._generated_transcripts` (steps 2 and 4): `some t`
when the key is present and `fetch` succeeds, `none` otherwise. -/
def genFetch (p : Provider) (lang : String) : Option (List CaptionEntry) :=
  match p.generated.find? (fun q => q.1 == lang) with
  | some (_, r) => r
  | none => none

/-- Step 5 of the fallback chain: fetch the first manually created track if
any exists (a raising `fetch` fails the whole step — the generated dict is
not consulted then, both lookups share one `try`), otherwise the first
auto-generated track. -/
def firstAvail (p : Provider) : Option (List CaptionEntry) :=
  match p.manual with
  | (_, r) :: _ => r
  | [] =>
    match p.generated with
    | (_, r) :: _ => r
    | [] => none

/-- The message wrapped around every failure by the outer handler of
`get_youtube_transcript` (line 120 of `src/api/main.py`). -/
def wrapFail (m : String) : String :=
  "사용 가능한 자막을 찾을 수 없습니다: " ++ m

/-- The message of the exception raised at line 116 when all five fallback
steps have failed. -/
def allFailMsg : String := "모든 자막 추출 시도 실패"

/-- `get_youtube_transcript` from `src/api/main.py`.  The steps are tried
strictly in order; the first success returns immediately.  The second
component records the fallback steps attempted, in order (a step is
recorded when its `try` block is entered).  If `list_transcripts` raises,
no fallback step runs and its message is wrapped; if all five steps fail,
the line-116 exception is wrapped. -/
def get_youtube_transcript (p : Provider) :
    Except String (List CaptionEntry) × List Step :=
  match p.listResult with
  | .error m => (.error (wrapFail m), [])
  | .ok _ =>
    match p.get "ko" with
    | .ok t => (.ok t, [.koManual])
    | .error _ =>
      match genFetch p "ko" with
      | some t => (.ok t, [.koManual, .koAuto])
      | none =>
        match p.get "en" with
        | .ok t => (.ok t, [.koManual, .koAuto, .enManual])
        | .error _ =>
          match genFetch p "en" with
          | some t => (.ok t, [.koManual, .koAuto, .enManual, .enAuto])
          | none =>
            match firstAvail p with
            | some t =>
              (.ok t, [.koManual, .koAuto, .enManual, .enAuto, .firstAvail])
            | none =>
              (.error (wrapFail allFailMsg),
                [.koManual, .koAuto, .enManual, .enAuto, .firstAvail])

/-- Python's substring test `pat in s`. -/
def containsSub (s pat : String) : Bool :=
  decide (pat.toList <:+: s.toList)

/-- Outcome of a request: either a JSON body (the `TranscriptResponse`
model) or an `HTTPException` with its status code and `detail` string. -/
inductive HttpResult where
  | ok (transcript : List TranscriptItem)
  | error (status : Nat) (detail : String)

/-- The `GET /transcript` route handler of `src/api/main.py`, paired with
the list of fallback steps attempted during the request (empty when the
provider is never consulted). -/
def transcript_endpoint (p : Provider) (url : String) :
    HttpResult × List Step :=
  match extract_video_id url with
  | none => (.error 400 "올바르지 않은 YouTube URL입니다.", [])
  | some _ =>
    match get_youtube_transcript p with
    | (.error m, tr) => (.error 500 ("자막을 가져오는 중 오류 발생: " ++ m), tr)
    | (.ok t, tr) => (.ok (t.map itemOfEntry), tr)

/-- The `GET /api/v1/youtube/transcript` route handler of
`src/api/main.py`: rejects an empty `videoId`, otherwise retrieves the
transcript; on failure it specializes the message for the two known
provider failure strings and answers 404 exactly when the final message
contains "찾을 수 없습니다". -/
def gpt_transcript_endpoint (p : Provider) (videoId : String) :
    HttpResult × List Step :=
  if videoId == "" then (.error 400 "videoId가 필요합니다.", [])
  else
    match get_youtube_transcript p with
    | (.ok t, tr) => (.ok (t.map itemOfEntry), tr)
    | (.error m, tr) =>
      let em :=
        if containsSub m "Subtitles are disabled" then
          "이 동영상은 자막이 비활성화되어 있습니다."
        else if containsSub m "Could not find transcripts" then
          "이 동영상에서 사용 가능한 자막을 찾을 수 없습니다."
        else m
      (.error (if containsSub em "찾을 수 없습니다" then 404 else 500) em, tr)

/-- Collapse every run of whitespace characters to a single space.  The
flag records whether the previously scanned character was whitespace. -/
def collapseWs : Bool → List Char → List Char
  | _, [] => []
  | prevWs, c :: cs =>
    if c.isWhitespace then
      if prevWs then collapseWs true cs else ' ' :: collapseWs true cs
    else c :: collapseWs false cs

/-- Trim leading and trailing whitespace. -/
def trimWs (l : List Char) : List Char :=
  ((l.dropWhile Char.isWhitespace).reverse.dropWhile Char.isWhitespace).reverse

/-- Modelled from the spec: Flattened mode is absent from `src/api/main.py`
(both endpoints return timestamped entries); spec §4.2 prescribes its
post-processing: "concatenate entry texts in original order with
single-space separators, then collapse any run of whitespace characters to
one space, then trim leading/trailing whitespace". -/
def flatten_entries (l : List CaptionEntry) : String :=
  String.mk
    (trimWs (collapseWs false
      (String.intercalate " " (l.map CaptionEntry.text)).toList))

/-- Well-formedness of a flattened string: no leading whitespace, no
trailing whitespace, and no two adjacent whitespace characters (hence no
run of whitespace longer than one). -/
def flatWellFormed (s : List Char) : Prop :=
  (∀ c, s.head? = some c → c.isWhitespace = false) ∧
  (∀ c, s.getLast? = some c → c.isWhitespace = false) ∧
  List.Chain' (fun a b => (a.isWhitespace && b.isWhitespace) = false) s

/-- A sample auto-generated Korean caption line. -/
def koAutoEntry : CaptionEntry :=
  { text := "ko auto line", start := 0.0, duration := 1.0 }

/-- A sample English caption line. -/
def enEntry : CaptionEntry :=
  { text := "en line", start := 0.0, duration := 1.0 }

/-- Provider state where the Korean lookup fails, a Korean auto-generated
track exists and fetches, and the English lookup would succeed. -/
def pKoAuto : Provider :=
  { listResult := .ok ()
    manual := []
    generated := [("ko", some [koAutoEntry])]
    get := fun l => if l == "en" then .ok [enEntry] else .error "no transcript" }

/-- Provider state with no captions at all: every call fails. -/
def pNone : Provider :=
  { listResult := .ok ()
    manual := []
    generated := []
    get := fun _ => .error "no transcript" }

/-- Provider state where only the English lookup succeeds. -/
def pEnOnly : Provider :=
  { listResult := .ok ()
    manual := []
    generated := []
    get := fun l => if l == "en" then .ok [enEntry] else .error "no ko" }

/-- Provider state whose `list_transcripts` call raises the
disabled-subtitles error. -/
def pDisabled : Provider :=
  { listResult := .error "Subtitles are disabled for this video"
    manual := []
    generated := []
    get := fun _ => .error "unreachable" }

/-- Provider state where the Korean lookup succeeds at once. -/
def pKoOk : Provider :=
  { listResult := .ok ()
    manual := []
    generated := []
    get := fun _ => .ok [koAutoEntry] }

theorem collapseWs_head_not_ws (l : List Char) :
    ∀ c, (collapseWs true l).head? = some c → c.isWhitespace = false := by
  induction l with
  | nil => intro c h; simp [collapseWs] at h
  | cons a as ih =>
    intro c h
    by_cases ha : a.isWhitespace
    · rw [collapseWs, if_pos ha, if_pos rfl] at h
      exact ih c h
    · rw [collapseWs, if_neg ha] at h
      simp only [List.head?_cons, Option.some.injEq] at h
      subst h
      simpa using ha

theorem collapseWs_chain (l : List Char) (prevWs : Bool) :
    List.Chain' (fun a b => (a.isWhitespace && b.isWhitespace) = false)
      (collapseWs prevWs l) := by
  induction l generalizing prevWs with
  | nil => simp [collapseWs]
  | cons a as ih =>
    by_cases ha : a.isWhitespace
    · rw [collapseWs, if_pos ha]
      by_cases hp : prevWs = true
      · rw [if_pos hp]; exact ih true
      · rw [if_neg hp]
        refine List.chain'_cons'.mpr ⟨?_, ih true⟩
        intro c hc
        have := collapseWs_head_not_ws as c hc
        simp [this]
    · rw [collapseWs, if_neg ha]
      refine List.chain'_cons'.mpr ⟨?_, ih false⟩
      intro c _
      simp [ha, Bool.eq_false_iff.mpr ha]

theorem dropWhile_head_not {p : Char → Bool} (l : List Char) :
    ∀ c, (l.dropWhile p).head? = some c → p c = false := by
  induction l with
  | nil => intro c h; simp at h
  | cons a as ih =>
    intro c h
    by_cases ha : p a
    · rw [List.dropWhile_cons, if_pos ha] at h
      exact ih c h
    · rw [List.dropWhile_cons, if_neg ha] at h
      simp only [List.head?_cons, Option.some.injEq] at h
      subst h
      simpa using ha

theorem trimWs_wf (a : List Char)
    (hc : List.Chain' (fun x y => (x.isWhitespace && y.isWhitespace) = false) a) :
    flatWellFormed (trimWs a) := by
  have hbsuf : a.dropWhile Char.isWhitespace <:+ a := List.dropWhile_suffix _
  have hcb : List.Chain' (fun x y => (x.isWhitespace && y.isWhitespace) = false)
      (a.dropWhile Char.isWhitespace) := hc.suffix hbsuf
  have hdsuf :
      (a.dropWhile Char.isWhitespace).reverse.dropWhile Char.isWhitespace
        <:+ (a.dropWhile Char.isWhitespace).reverse := List.dropWhile_suffix _
  have hpre : trimWs a <+: a.dropWhile Char.isWhitespace := by
    have h1 := (List.reverse_prefix).mpr hdsuf
    rwa [List.reverse_reverse] at h1
  refine ⟨?_, ?_, hcb.prefix hpre⟩
  · intro c h
    obtain ⟨t, ht⟩ := hpre
    cases hd : trimWs a with
    | nil => rw [hd] at h; simp at h
    | cons x xs =>
      have hhead : (a.dropWhile Char.isWhitespace).head? = some x := by
        rw [hd] at ht
        rw [← ht]
        rfl
      have hx := dropWhile_head_not a x hhead
      rw [hd] at h
      simp only [List.head?_cons, Option.some.injEq] at h
      rw [← h]
      exact hx
  · intro c h
    have h2 : ((a.dropWhile Char.isWhitespace).reverse.dropWhile
        Char.isWhitespace).head? = some c := by
      rw [← List.getLast?_reverse]
      exact h
    exact dropWhile_head_not _ c h2

theorem matchAt_sound {pre s t : List Char} (h : matchAt pre s = some t) :
    t.length = 11 ∧ t.all idChar = true ∧ t <:+: s := by
  unfold matchAt at h
  split at h
  · rename_i hg
    simp only [Option.some.injEq] at h
    subst h
    simp only [Bool.and_eq_true, beq_iff_eq] at hg
    refine ⟨hg.1.2, hg.2, ?_⟩
    exact ((List.take_prefix _ _).isInfix).trans ((List.drop_suffix _ _).isInfix)
  · exact absurd h (by simp)

theorem searchPat_sound {pre : List Char} :
    ∀ {s t : List Char}, searchPat pre s = some t →
      t.length = 11 ∧ t.all idChar = true ∧ t <:+: s := by
  intro s
  induction s with
  | nil => intro t h; exact matchAt_sound h
  | cons c cs ih =>
    intro t h
    rw [searchPat] at h
    cases hm : matchAt pre (c :: cs) with
    | some t0 =>
      rw [hm] at h
      simp only [Option.some.injEq] at h
      subst h
      exact matchAt_sound hm
    | none =>
      rw [hm] at h
      have := ih h
      exact ⟨this.1, this.2.1, List.infix_cons this.2.2⟩

theorem matchBareId_sound {s t : List Char} (h : matchBareId s = some t) :
    t.length = 11 ∧ t.all idChar = true ∧ (s = t ∨ s = t ++ ['\n']) := by
  unfold matchBareId at h
  split at h
  · rename_i hg
    simp only [Option.some.injEq] at h
    subst h
    simp only [Bool.and_eq_true, beq_iff_eq, Bool.or_eq_true] at hg
    refine ⟨hg.1.1, hg.1.2, ?_⟩
    rcases hg.2 with h11 | h11
    · left
      conv_lhs => rw [← List.take_append_drop 11 s]
      rw [h11, List.append_nil]
    · right
      conv_lhs => rw [← List.take_append_drop 11 s]
      rw [h11]
  · exact absurd h (by simp)

/-- C3: the identifier extractor returns "abcdefghijk" for each of
`https://youtube.com/watch?v=abcdefghijk`, `https://youtu.be/abcdefghijk`,
`https://youtube.com/embed/abcdefghijk` and the bare `abcdefghijk`, and
returns no match for `not a youtube url`. -/
theorem extractor_examples :
    extract_video_id "https://youtube.com/watch?v=abcdefghijk"
        = some "abcdefghijk" ∧
    extract_video_id "https://youtu.be/abcdefghijk" = some "abcdefghijk" ∧
    extract_video_id "https://youtube.com/embed/abcdefghijk"
        = some "abcdefghijk" ∧
    extract_video_id "abcdefghijk" = some "abcdefghijk" ∧
    extract_video_id "not a youtube url" = none :=
  ⟨by decide, by decide, by decide, by decide, by decide⟩

/-- C4: for every input string the extractor either signals no match or
returns a string of exactly 11 characters drawn from `[A-Za-z0-9_-]` that
occurs contiguously in the input (captured by a pattern match) — it never
fabricates an identifier. -/
theorem extractor_never_fabricates (url : String) :
    extract_video_id url = none ∨
    ∃ t : String, extract_video_id url = some t ∧ t.length = 11 ∧
      t.toList.all idChar = true ∧ t.toList <:+: url.toList := by
  unfold extract_video_id
  cases h1 : searchPat ['v', '='] url.toList with
  | some t =>
    simp only [h1]
    obtain ⟨hl, ha, hi⟩ := searchPat_sound h1
    exact Or.inr ⟨String.mk t, rfl, hl, ha, hi⟩
  | none =>
    simp only [h1]
    cases h2 : searchPat ['y', 'o', 'u', 't', 'u', '.', 'b', 'e', '/']
        url.toList with
    | some t =>
      simp only [h2]
      obtain ⟨hl, ha, hi⟩ := searchPat_sound h2
      exact Or.inr ⟨String.mk t, rfl, hl, ha, hi⟩
    | none =>
      simp only [h2]
      cases h3 : searchPat ['e', 'm', 'b', 'e', 'd', '/'] url.toList with
      | some t =>
        simp only [h3]
        obtain ⟨hl, ha, hi⟩ := searchPat_sound h3
        exact Or.inr ⟨String.mk t, rfl, hl, ha, hi⟩
      | none =>
        simp only [h3]
        cases h4 : matchBareId url.toList with
        | some t =>
          simp only [h4, Option.map_some']
          obtain ⟨hl, ha, hs⟩ := matchBareId_sound h4
          refine Or.inr ⟨String.mk t, rfl, hl, ha, ?_⟩
          rcases hs with h | h
          · rw [h]
            exact List.infix_refl t
          · rw [h]
            exact (List.prefix_append t ['\n']).isInfix
        | none =>
          simp only [h4, Option.map_none']
          exact Or.inl trivial

/-- C10 counterexample: the bare-ID pattern `^([a-zA-Z0-9_-]{11})$` does
not require the whole input to be exactly 11 characters — the 12-character
input `"abcdefghijk\n"` matches it (Python `$` also matches just before a
trailing newline), and the extractor returns `"abcdefghijk"` for it. -/
theorem bare_pattern_accepts_trailing_newline :
    matchBareId "abcdefghijk\n".toList = some "abcdefghijk".toList ∧
    "abcdefghijk\n".toList.length ≠ 11 ∧
    extract_video_id "abcdefghijk\n" = some "abcdefghijk" :=
  ⟨by decide, by decide, by decide⟩

/-- C10 (amended): the `v=`, `youtu.be/` and `embed/` patterns are
unanchored substring searches, so an input whose candidate token is longer
than 11 characters yields the first 11 characters of the token
(`v=abcdefghijkl` gives `abcdefghijk`, not a failed match); the bare-ID
pattern alone is anchored, accepting exactly an 11-character token of the
class, optionally followed by a single trailing newline. -/
theorem unanchored_vs_bare_pattern :
    extract_video_id "v=abcdefghijkl" = some "abcdefghijk" ∧
    (∀ s t : List Char, matchBareId s = some t →
      t.length = 11 ∧ t.all idChar = true ∧ (s = t ∨ s = t ++ ['\n'])) :=
  ⟨by decide, fun _ _ h => matchBareId_sound h⟩

/-- Witness for `unanchored_vs_bare_pattern`: instantiating the anchored
clause at the concrete matching input `"abcdefghijk\n"`. -/
theorem unanchored_vs_bare_pattern_witness :
    "abcdefghijk".toList.length = 11 ∧
    "abcdefghijk".toList.all idChar = true ∧
    ("abcdefghijk\n".toList = "abcdefghijk".toList ∨
      "abcdefghijk\n".toList = "abcdefghijk".toList ++ ['\n']) :=
  unanchored_vs_bare_pattern.2 "abcdefghijk\n".toList "abcdefghijk".toList
    (by decide)

/-- C1 counterexample: with provider state `pKoAuto` the primary-language
(Korean) lookup fails and the secondary-language (English) lookup would
succeed, yet the returned transcript is the Korean auto-generated one — the
chain has an intermediate Korean auto-generated step the claim omits. -/
theorem fallback_ko_auto_preempts_en :
    pKoAuto.get "ko" = .error "no transcript" ∧
    pKoAuto.get "en" = .ok [enEntry] ∧
    get_youtube_transcript pKoAuto =
      (.ok [koAutoEntry], [.koManual, .koAuto]) ∧
    (get_youtube_transcript pKoAuto).1 ≠ .ok [enEntry] := by
  refine ⟨rfl, rfl, rfl, ?_⟩
  intro h
  have h1 : [koAutoEntry] = [enEntry] := Except.ok.inj h
  have h2 := congrArg (List.map CaptionEntry.text) h1
  exact absurd h2 (by decide)

/-- C1 (amended): the retriever attempts its five fallback steps strictly
in order — Korean, Korean auto-generated, English, English auto-generated,
first-available — and the first successful step's transcript is returned
immediately: when the Korean and Korean auto-generated lookups fail and the
English lookup succeeds, the English transcript is returned and no later
step is attempted. -/
theorem fallback_first_success (p : Provider) (t : List CaptionEntry)
    (m : String) (hl : p.listResult = .ok ()) (hko : p.get "ko" = .error m)
    (hga : genFetch p "ko" = none) (hen : p.get "en" = .ok t) :
    get_youtube_transcript p = (.ok t, [.koManual, .koAuto, .enManual]) := by
  simp only [get_youtube_transcript, hl, hko, hga, hen]

/-- Witness for `fallback_first_success` at the concrete provider state
`pEnOnly`. -/
theorem fallback_first_success_witness :
    get_youtube_transcript pEnOnly =
      (.ok [enEntry], [.koManual, .koAuto, .enManual]) :=
  fallback_first_success pEnOnly [enEntry] "no ko" rfl rfl rfl rfl

/-- C2 counterexample: with provider state `pNone` every fallback step
fails, yet `GET /transcript` answers HTTP 500, not a NotFound-class 404. -/
theorem exhaustion_gives_500_on_transcript :
    (transcript_endpoint pNone "https://youtu.be/abcdefghijk").1 =
      .error 500 ("자막을 가져오는 중 오류 발생: " ++ wrapFail allFailMsg) ∧
    (transcript_endpoint pNone "https://youtu.be/abcdefghijk").2 =
      [.koManual, .koAuto, .enManual, .enAuto, .firstAvail] :=
  ⟨rfl, rfl⟩

theorem allFail_no_disabled :
    containsSub (wrapFail allFailMsg) "Subtitles are disabled" = false := by
  decide

theorem allFail_no_notfound :
    containsSub (wrapFail allFailMsg) "Could not find transcripts" = false := by
  decide

theorem allFail_korean_notfound :
    containsSub (wrapFail allFailMsg) "찾을 수 없습니다" = true := by
  decide

/-- C2 (amended): when every fallback step fails (with `list_transcripts`
itself succeeding), `GET /api/v1/youtube/transcript` fails with HTTP 404
while `GET /transcript` fails with HTTP 500; neither endpoint ever succeeds
with a partially built or empty transcript. -/
theorem exhaustion_never_succeeds (p : Provider)
    (url vid videoId m1 m2 : String)
    (hu : extract_video_id url = some vid) (hv : videoId ≠ "")
    (hl : p.listResult = .ok ()) (hko : p.get "ko" = .error m1)
    (hgk : genFetch p "ko" = none) (hen : p.get "en" = .error m2)
    (hge : genFetch p "en" = none) (hfa : firstAvail p = none) :
    (transcript_endpoint p url).1 =
      .error 500 ("자막을 가져오는 중 오류 발생: " ++ wrapFail allFailMsg) ∧
    (gpt_transcript_endpoint p videoId).1 =
      .error 404 (wrapFail allFailMsg) := by
  have hr : get_youtube_transcript p = (.error (wrapFail allFailMsg),
      [.koManual, .koAuto, .enManual, .enAuto, .firstAvail]) := by
    simp only [get_youtube_transcript, hl, hko, hgk, hen, hge, hfa]
  have hv' : (videoId == "") = false := by
    simpa using hv
  constructor
  · simp only [transcript_endpoint, hu, hr]
  · simp only [gpt_transcript_endpoint, hv', Bool.false_eq_true, if_false,
      hr, allFail_no_disabled, allFail_no_notfound, allFail_korean_notfound,
      if_true]

/-- Witness for `exhaustion_never_succeeds` at the concrete provider state
`pNone`. -/
theorem exhaustion_never_succeeds_witness :
    (transcript_endpoint pNone "https://youtube.com/watch?v=abcdefghijk").1 =
      .error 500 ("자막을 가져오는 중 오류 발생: " ++ wrapFail allFailMsg) ∧
    (gpt_transcript_endpoint pNone "abcdefghijk").1 =
      .error 404 (wrapFail allFailMsg) :=
  exhaustion_never_succeeds pNone "https://youtube.com/watch?v=abcdefghijk"
    "abcdefghijk" "abcdefghijk" "no transcript" "no transcript" (by decide)
    (by decide) rfl rfl rfl rfl rfl rfl

/-- C5 (spec-modelled): in Flattened mode the entry texts are concatenated
in original order with single-space separators, whitespace runs collapse to
one space and the ends are trimmed, so the result never has leading or
trailing whitespace nor two adjacent whitespace characters; the documented
example flattens to `"hello world"`. -/
theorem flatten_entries_spec :
    (∀ l : List CaptionEntry, flatWellFormed (flatten_entries l).toList) ∧
    flatten_entries
      [{ text := "hello  ", start := 0.0, duration := 0.0 },
        { text := " world", start := 0.0, duration := 0.0 }] = "hello world" := by
  constructor
  · intro l
    exact trimWs_wf _ (collapseWs_chain _ _)
  · rfl

/-- C6: in Timestamped mode each caption entry is passed through
unchanged — the `/transcript` response body is the provider's entry list
mapped into `TranscriptItem`s that copy `text`, `start` and `duration`, so
all three field sequences and the length are preserved. -/
theorem timestamped_passthrough (p : Provider) (url vid : String)
    (t : List CaptionEntry) (tr : List Step)
    (hu : extract_video_id url = some vid)
    (hr : get_youtube_transcript p = (.ok t, tr)) :
    (transcript_endpoint p url).1 = .ok (t.map itemOfEntry) ∧
    (t.map itemOfEntry).map TranscriptItem.text = t.map CaptionEntry.text ∧
    (t.map itemOfEntry).map TranscriptItem.start = t.map CaptionEntry.start ∧
    (t.map itemOfEntry).map TranscriptItem.duration
      = t.map CaptionEntry.duration ∧
    (t.map itemOfEntry).length = t.length := by
  refine ⟨?_, ?_, ?_, ?_, ?_⟩
  · simp only [transcript_endpoint, hu, hr]
  · rw [List.map_map]
    rfl
  · rw [List.map_map]
    rfl
  · rw [List.map_map]
    rfl
  · simp

/-- Witness for `timestamped_passthrough` at the concrete provider state
`pKoOk`. -/
theorem timestamped_passthrough_witness :
    (transcript_endpoint pKoOk "abcdefghijk").1 =
      .ok ([koAutoEntry].map itemOfEntry) :=
  (timestamped_passthrough pKoOk "abcdefghijk" "abcdefghijk" [koAutoEntry]
    [.koManual] (by decide) rfl).1

/-- C7: a `GET /transcript` request whose `url` yields no identifier is
rejected with HTTP 400, and no provider call is made (the attempt trace is
empty, for every provider state). -/
theorem invalid_url_rejected (p : Provider) (url : String)
    (h : extract_video_id url = none) :
    transcript_endpoint p url =
      (.error 400 "올바르지 않은 YouTube URL입니다.", []) := by
  simp only [transcript_endpoint, h]

/-- Witness for `invalid_url_rejected` at the documented unparsable URL. -/
theorem invalid_url_rejected_witness :
    transcript_endpoint pNone "not a youtube url" =
      (.error 400 "올바르지 않은 YouTube URL입니다.", []) :=
  invalid_url_rejected pNone "not a youtube url" (by decide)

/-- C8: a `GET /api/v1/youtube/transcript` request with an empty `videoId`
is rejected with HTTP 400 (and no provider call is made), for every
provider state. -/
theorem empty_videoId_rejected (p : Provider) :
    gpt_transcript_endpoint p "" = (.error 400 "videoId가 필요합니다.", []) :=
  rfl

theorem retriever_error_wrapped (p : Provider) (m : String) (tr : List Step)
    (h : get_youtube_transcript p = (.error m, tr)) :
    m = wrapFail allFailMsg ∨ ∃ e, p.listResult = .error e ∧ m = wrapFail e := by
  unfold get_youtube_transcript at h
  cases hl : p.listResult with
  | error e =>
    simp only [hl, Prod.mk.injEq, Except.error.injEq] at h
    exact Or.inr ⟨e, rfl, h.1.symm⟩
  | ok u =>
    simp only [hl] at h
    cases hko : p.get "ko" with
    | ok t => simp [hko] at h
    | error m1 =>
      simp only [hko] at h
      cases hgk : genFetch p "ko" with
      | some t => simp [hgk] at h
      | none =>
        simp only [hgk] at h
        cases hen : p.get "en" with
        | ok t => simp [hen] at h
        | error m2 =>
          simp only [hen] at h
          cases hge : genFetch p "en" with
          | some t => simp [hge] at h
          | none =>
            simp only [hge] at h
            cases hfa : firstAvail p with
            | some t => simp [hfa] at h
            | none =>
              simp only [hfa, Prod.mk.injEq, Except.error.injEq] at h
              exact Or.inl h.1.symm

theorem disabled_msg_not_korean_notfound :
    containsSub "이 동영상은 자막이 비활성화되어 있습니다." "찾을 수 없습니다" = false := by
  decide

theorem notfound_msg_korean_notfound :
    containsSub "이 동영상에서 사용 가능한 자막을 찾을 수 없습니다." "찾을 수 없습니다" = true := by
  decide

/-- C9: every retrieval failure surfaces on `/api/v1/youtube/transcript` as
follows: when the failure message contains "Subtitles are disabled" the
user sees the specialized localized disabled-captions message; when it
instead contains "Could not find transcripts" the user sees the specialized
localized no-captions message; in every other case the user sees the
generic wrapped message itself (which is always of the wrapped form). -/
theorem error_message_mapping (p : Provider) (videoId m : String)
    (tr : List Step) (hv : videoId ≠ "")
    (hr : get_youtube_transcript p = (.error m, tr)) :
    (m = wrapFail allFailMsg ∨ ∃ e, p.listResult = .error e ∧ m = wrapFail e) ∧
    (containsSub m "Subtitles are disabled" = true →
      (gpt_transcript_endpoint p videoId).1 =
        .error 500 "이 동영상은 자막이 비활성화되어 있습니다.") ∧
    (containsSub m "Subtitles are disabled" = false →
      containsSub m "Could not find transcripts" = true →
      (gpt_transcript_endpoint p videoId).1 =
        .error 404 "이 동영상에서 사용 가능한 자막을 찾을 수 없습니다.") ∧
    (containsSub m "Subtitles are disabled" = false →
      containsSub m "Could not find transcripts" = false →
      (gpt_transcript_endpoint p videoId).1 =
        .error (if containsSub m "찾을 수 없습니다" then 404 else 500) m) := by
  have hv' : (videoId == "") = false := by
    simpa using hv
  refine ⟨retriever_error_wrapped p m tr hr, ?_, ?_, ?_⟩
  · intro h1
    simp [gpt_transcript_endpoint, hv', hr, h1,
      disabled_msg_not_korean_notfound]
  · intro h1 h2
    simp [gpt_transcript_endpoint, hv', hr, h1, h2,
      notfound_msg_korean_notfound]
  · intro h1 h2
    simp [gpt_transcript_endpoint, hv', hr, h1, h2]

/-- Witness for `error_message_mapping` at the concrete provider state
`pDisabled`, whose `list_transcripts` call raises the disabled-subtitles
error. -/
theorem error_message_mapping_witness :
    (gpt_transcript_endpoint pDisabled "abcdefghijk").1 =
      .error 500 "이 동영상은 자막이 비활성화되어 있습니다." :=
  (error_message_mapping pDisabled "abcdefghijk"
    (wrapFail "Subtitles are disabled for this video") [] (by decide)
    rfl).2.1 (by decide)
